import Mathlib

/-!
Verification of the geoengine geospatial query-processing core against its
natural-language specification.  The Rust sources are shallowly embedded:
pure functions become Lean functions, fallible functions return `Except`,
machine floating-point values that only ever hold exactly-representable
integral/decimal quantities are embedded as rationals, and signed machine
integers are embedded as `Int` (no arithmetic here approaches overflow).
-/

namespace Geo

/-! ## Grid data model

From `datatypes/src/raster/no_data_grid.rs` and the grid trait layer it
builds on.  A multi-index (`GridIdx`) is a tuple of signed integers; a
`GridShape` is a tuple of per-axis extents.  The trait layer
(`grid_traits.rs`) is not part of the source sample, so its contracts are
modelled from the spec where noted.
-/

/-- A grid multi-index: an ordered tuple of signed per-axis indices
(`GridIdx` in the Rust source, generic over the dimension count). -/
abbrev GridIdx := List Int

/-- A grid shape: an ordered tuple of per-axis extents (`GridShape`,
generic over 1D/2D/3D via its `shape_array`). -/
structure GridShape where
  shape_array : List Nat
deriving DecidableEq, Repr

/-- `number_of_elements = Π axis_size` (spec §3, `GridSize`). -/
def GridShape.number_of_elements (s : GridShape) : Nat :=
  s.shape_array.prod

/-- Component-wise `≤` on multi-indices, false on dimension mismatch
(the partial order on `GridIdx` used by the bounds checks). -/
def idxLe : GridIdx → GridIdx → Bool
  | [], [] => true
  | a :: as_, b :: bs => decide (a ≤ b) && idxLe as_ bs
  | _, _ => false

/-- Modelled from the spec: for a `GridShape` (missing `grid_traits.rs`),
`min_index` is the all-zero index (`GridBounds::min_index`). -/
def GridShape.min_index (s : GridShape) : GridIdx :=
  s.shape_array.map fun _ => (0 : Int)

/-- Modelled from the spec: for a `GridShape` (missing `grid_traits.rs`),
`max_index` is `axis_size - 1` per axis (`GridBounds::max_index`). -/
def GridShape.max_index (s : GridShape) : GridIdx :=
  s.shape_array.map fun a => (a : Int) - 1

/-- Modelled from the spec: containment is
`min_index ≤ index ≤ max_index` component-wise (spec §3 invariant,
`GridContains::contains` of the missing trait layer). -/
def GridShape.contains (s : GridShape) (idx : GridIdx) : Bool :=
  idxLe s.min_index idx && idxLe idx s.max_index

/-- Errors of the grid layer.  `gridIndexOutOfBounds` carries the offending
index and the valid range (`error::GridIndexOutOfBounds`);
`bufferIndexPanic` stands for a Rust slice-indexing panic, which the
bounds check is meant to make unreachable. -/
inductive GridError
  | gridIndexOutOfBounds (index min_index max_index : GridIdx)
  | bufferIndexPanic
deriving DecidableEq, Repr

/-- `NoDataGrid<D, T>`: a zero-storage virtual grid holding only a shape
and a single no-data value. -/
structure NoDataGrid (T : Type) where
  shape : GridShape
  no_data_value : T
deriving DecidableEq, Repr

/-- `NoDataGrid::get_at_grid_index_unchecked`: returns the no-data value,
ignoring the index entirely. -/
def NoDataGrid.get_at_grid_index_unchecked {T} (g : NoDataGrid T) (_grid_index : GridIdx) : T :=
  g.no_data_value

/-- `GridIndexAccess::get_at_grid_index` for `NoDataGrid`: ensure the shape
contains the index, else fail with `GridIndexOutOfBounds{index, min, max}`;
on success delegate to the unchecked accessor. -/
def NoDataGrid.get_at_grid_index {T} (g : NoDataGrid T) (grid_index : GridIdx) :
    Except GridError T :=
  if g.shape.contains grid_index then
    .ok (g.get_at_grid_index_unchecked grid_index)
  else
    .error (.gridIndexOutOfBounds grid_index g.shape.min_index g.shape.max_index)

/-- `NoDataGrid::convert_dtype::<To>`: converts the no-data value with the
numeric cast `T as To` (`num_traits::AsPrimitive`), keeping the shape.  The
cast semantics of the concrete instantiation is passed explicitly. -/
def NoDataGrid.convert_dtype {T To : Type} (g : NoDataGrid T) (cast : T → To) : NoDataGrid To :=
  ⟨g.shape, cast g.no_data_value⟩

/-- Rust integer-to-`f64` cast (`v as f64`), embedded into `ℚ`.  This
embedding is exact precisely on the integer range `f64` represents exactly
(`|v| ≤ 2^53`), which covers every integer pixel type of at most 32 bits;
theorems using it carry that bound as a hypothesis. -/
def intAsF64 (v : Int) : ℚ := (v : ℚ)

/-- `Grid<D, T>`: a dense grid owning a flat buffer of
`number_of_elements` values plus an optional no-data sentinel. -/
structure Grid (T : Type) where
  shape : GridShape
  data : List T
  no_data_value : Option T
deriving DecidableEq, Repr

/-- Modelled from the spec: `Grid::new_filled` (missing `grid.rs`) builds a
dense grid whose buffer holds `number_of_elements` copies of the fill
value, with the given sentinel. -/
def Grid.new_filled {T} (shape : GridShape) (value : T) (no_data : Option T) : Grid T :=
  ⟨shape, List.replicate shape.number_of_elements value, no_data⟩

/-- Modelled from the spec: row-major linearization of a multi-index
(stride of an axis = product of the later extents), the
`GridSpaceToLinearSpace` contract of the missing trait layer. -/
def linearSpaceIndexUnchecked : List Nat → GridIdx → Int
  | _, [] => 0
  | [], _ :: _ => 0
  | _ :: ss, i :: is_ => i * (ss.prod : Int) + linearSpaceIndexUnchecked ss is_

/-- Modelled from the spec: `GridIndexAccess::get_at_grid_index` for the
dense `Grid` (missing `grid.rs`): fail with `OutOfBounds{index, min, max}`
outside `[min_index, max_index]`, otherwise read the buffer at the
linearized index (a read past the buffer would be a Rust panic). -/
def Grid.get_at_grid_index {T} (g : Grid T) (grid_index : GridIdx) : Except GridError T :=
  if g.shape.contains grid_index then
    match g.data.get? (linearSpaceIndexUnchecked g.shape.shape_array grid_index).toNat with
    | some t => .ok t
    | none => .error .bufferIndexPanic
  else
    .error (.gridIndexOutOfBounds grid_index g.shape.min_index g.shape.max_index)

/-- `impl From<NoDataGrid<D, T>> for Grid<D, T>`: materialize as a dense
grid filled with the no-data value, whose own sentinel is that value. -/
def NoDataGrid.toGrid {T} (no_grid_array : NoDataGrid T) : Grid T :=
  Grid.new_filled no_grid_array.shape no_grid_array.no_data_value
    (some no_grid_array.no_data_value)

/-- `GridBoundingBox<I>`: an arbitrary (possibly negative-based) bounding
box given by its minimal and maximal index. -/
structure GridBoundingBox where
  min : GridIdx
  max : GridIdx
deriving DecidableEq, Repr

/-- Modelled from the spec: a bounding box is degenerate when it is not the
case that `min ≤ max` component-wise (spec §4.1, "fails if the new bounds
are degenerate"). -/
def GridBoundingBox.isDegenerate (b : GridBoundingBox) : Bool :=
  !(idxLe b.min b.max)

/-- A `NoDataGrid` re-based onto a `GridBoundingBox`
(`NoDataGrid<GridBoundingBox<I>, T>`, the output type of
`ChangeGridBounds` for `NoDataGrid`). -/
structure NoDataGridBounded (T : Type) where
  shape : GridBoundingBox
  no_data_value : T
deriving DecidableEq, Repr

/-- `ChangeGridBounds::set_grid_bounds` for `NoDataGrid`: the source
unconditionally returns `Ok(NoDataGrid::new(bounds, self.no_data_value))`. -/
def NoDataGrid.set_grid_bounds {T} (g : NoDataGrid T) (bounds : GridBoundingBox) :
    Except GridError (NoDataGridBounded T) :=
  .ok ⟨bounds, g.no_data_value⟩

/-! ## Operator graph: `RasterVectorJoin`

From `operators/src/processing/raster_vector_join/mod.rs`.  A child source
operator is represented by the outcome of initializing it under the ambient
execution context (`Result` of the child's `initialize`); the content of an
initialized raster child is opaque to this operator. -/

/-- `VectorDataType` (`geoengine_datatypes::collections`): the geometry
kind of a vector collection; `Data` is the attribute-only (no geometry)
kind. -/
inductive VectorDataType
  | Data
  | MultiPoint
  | MultiLineString
  | MultiPolygon
deriving DecidableEq, Repr

/-- The type of a vector attribute column (opaque here). -/
inductive FeatureDataType
  | Categorical
  | Decimal
  | Number
  | Text
deriving DecidableEq, Repr

/-- `VectorResultDescriptor`: geometry kind, optional spatial reference
(EPSG code), and the named+typed attribute columns. -/
structure VectorResultDescriptor where
  data_type : VectorDataType
  spatial_reference : Option Nat
  columns : List (String × FeatureDataType)
deriving DecidableEq, Repr

/-- The operator-layer errors raised by `RasterVectorJoin::initialize`
(`error::InvalidNumberOf{Vector,Raster}Inputs`, `InvalidOperatorSpec`,
`InvalidType`), plus an abstract failure of a child initialization. -/
inductive OperatorError
  | invalidNumberOfVectorInputs (expected_lo expected_hi found : Nat)
  | invalidNumberOfRasterInputs (expected_lo expected_hi found : Nat)
  | invalidOperatorSpec (reason : String)
  | invalidType (expected found : String)
  | childFailure (reason : String)
deriving DecidableEq, Repr

/-- `RasterVectorJoinParams`: one output-column name per raster input. -/
structure RasterVectorJoinParams where
  names : List String
deriving DecidableEq, Repr

/-- `const MAX_NUMBER_OF_RASTER_INPUTS: usize = 8`. -/
def MAX_NUMBER_OF_RASTER_INPUTS : Nat := 8

/-- `Operator<RasterVectorJoinParams>`: parameters plus raster- and
vector-source children, each child given by its initialization outcome. -/
structure RasterVectorJoin where
  params : RasterVectorJoinParams
  raster_sources : List (Except OperatorError Unit)
  vector_sources : List (Except OperatorError VectorResultDescriptor)

/-- `InitializedRasterVectorJoin`: the initialized operator, exposing the
result descriptor. -/
structure InitializedRasterVectorJoin where
  params : RasterVectorJoinParams
  raster_sources : List Unit
  result_descriptor : VectorResultDescriptor
deriving DecidableEq, Repr

/-- `RasterVectorJoin::initialize` (`VectorOperator` impl, lines 27-85):
the three `ensure!` checks in source order — exactly one vector source;
then the raster-arity condition written in the source as
`!raster_sources.is_empty() || raster_sources.len() > MAX_NUMBER_OF_RASTER_INPUTS`
(an `ensure!` fails when its condition is false); then
`raster_sources.len() == names.len()` — followed by initializing the single
vector source, rejecting an attribute-only geometry type, initializing all
raster children, and exposing the vector child's result descriptor
unchanged. -/
def RasterVectorJoin.init (op : RasterVectorJoin) :
    Except OperatorError InitializedRasterVectorJoin :=
  if ¬ op.vector_sources.length = 1 then
    .error (.invalidNumberOfVectorInputs 1 2 op.vector_sources.length)
  else if !(!op.raster_sources.isEmpty
      || decide (op.raster_sources.length > MAX_NUMBER_OF_RASTER_INPUTS)) then
    .error (.invalidNumberOfRasterInputs 1 MAX_NUMBER_OF_RASTER_INPUTS op.raster_sources.length)
  else if ¬ op.raster_sources.length = op.params.names.length then
    .error (.invalidOperatorSpec "raster_sources must be of equal length as names")
  else
    match op.vector_sources.headD (.error (.invalidOperatorSpec "no vector source")) with
    | .error e => .error e
    | .ok vector_source =>
      if vector_source.data_type = VectorDataType.Data then
        .error (.invalidType "MultiPoint, MultiLineString or MultiPolygon" "Data")
      else
        match op.raster_sources.mapM id with
        | .error e => .error e
        | .ok raster_sources => .ok ⟨op.params, raster_sources, vector_source⟩

/-! ## WCS `get_coverage` request validation

From `services/src/handlers/wcs.rs`, `get_coverage` (lines 248-431).  The
OGC request-parsing layer (`ogc::wcs::request`) is not part of the source
sample: the request is modelled with its grid origin already resolved to a
coordinate in the grid base CRS (`GridOrigin::coordinate(gridbasecrs)`) and
its bounding box already resolved to a spatial partition
(`GetCoverage::spatial_partition`).  Everything from workflow loading
onward is external I/O, collapsed into the `queryExecuted` outcome. -/

/-- A 2D coordinate (`Coordinate2D`); the engine's `f64` coordinates only
ever hold exactly-representable values here, embedded as rationals. -/
structure Coordinate2D where
  x : ℚ
  y : ℚ
deriving DecidableEq, Repr

/-- A spatial reference (`SpatialReference`): authority plus code. -/
structure SpatialReference where
  authority : String
  code : Nat
deriving DecidableEq, Repr

/-- An axis-aligned spatial partition given by its upper-left and
lower-right coordinates (`SpatialPartition2D`). -/
structure SpatialPartition2D where
  upper_left : Coordinate2D
  lower_right : Coordinate2D
deriving DecidableEq, Repr

/-- Modelled from the spec: the WCS bounding-box request parameter, which
may carry its own CRS (spec §4.4 step 6), resolved to a partition. -/
structure WcsBoundingbox where
  partition : SpatialPartition2D
  spatial_reference : Option SpatialReference
deriving DecidableEq, Repr

/-- Modelled from the spec: the `GetCoverage` request fields consumed by
the handler's validation prefix; `gridorigin` is the origin already
interpreted as a coordinate in `gridbasecrs`. -/
structure GetCoverage where
  version : String
  identifier : String
  boundingbox : WcsBoundingbox
  gridbasecrs : SpatialReference
  gridorigin : Option Coordinate2D
deriving DecidableEq, Repr

/-- The fatal request errors of the `get_coverage` validation prefix. -/
inductive WcsError
  | wcsVersionNotSupported
  | wcsGridOriginMustEqualBoundingboxUpperLeft
  | wcsBoundingboxCrsMustEqualGridBaseCrs
deriving DecidableEq, Repr

/-- The successful outcome of the validation prefix: the handler proceeds
to load the workflow and execute the query (external from here on). -/
inductive WcsOutcome
  | queryExecuted (spatial_bounds : SpatialPartition2D) (request_spatial_ref : SpatialReference)
deriving DecidableEq, Repr

/-- The bounding-box CRS check of `get_coverage` (lines 268-273): if the
request's bounding box carries its own CRS it must equal `gridbasecrs`. -/
def get_coverage_crs_check (request : GetCoverage) : Except WcsError WcsOutcome :=
  match request.boundingbox.spatial_reference with
  | some bbox_spatial_reference =>
    if request.gridbasecrs = bbox_spatial_reference then
      .ok (.queryExecuted request.boundingbox.partition request.gridbasecrs)
    else
      .error .wcsBoundingboxCrsMustEqualGridBaseCrs
  | none => .ok (.queryExecuted request.boundingbox.partition request.gridbasecrs)

/-- `get_coverage` (lines 248-431): version check, then the grid-origin
check (lines 261-266: an explicit grid origin must equal the partition's
upper-left corner), then the bounding-box CRS check; only then is the
workflow loaded and the query executed. -/
def get_coverage (request : GetCoverage) : Except WcsError WcsOutcome :=
  if ¬ (request.version = "1.1.1" ∨ request.version = "1.1.0") then
    .error .wcsVersionNotSupported
  else
    match request.gridorigin with
    | some gridorigin =>
      if gridorigin = request.boundingbox.partition.upper_left then
        get_coverage_crs_check request
      else
        .error .wcsGridOriginMustEqualBoundingboxUpperLeft
    | none => get_coverage_crs_check request

/-! ## Temporal catalog resolution: Sentinel-2 L2A COGs

From `services/src/pro/datasets/external/sentinel_s2_l2a_cogs.rs`.  The
network layer (`load_collection` / `load_all_features`) is external I/O:
`create_loading_info` is embedded from the point where the fetched STAC
features are in hand (lines 250-305).  `TimeInterval` / `TimeInstance`
(`datatypes` primitives, missing from the source sample) are modelled from
the spec on the engine's millisecond timeline. -/

/-- `RasterDataType`: the fixed set of pixel types. -/
inductive RasterDataType
  | U8 | U16 | U32 | U64 | I8 | I16 | I32 | I64 | F32 | F64
deriving DecidableEq, Repr

/-- A Sentinel band: name, optional no-data value, pixel type. -/
structure Band where
  name : String
  no_data_value : Option ℚ
  data_type : RasterDataType
deriving DecidableEq, Repr

/-- A Sentinel UTM zone: name and EPSG code. -/
structure Zone where
  name : String
  epsg : Nat
deriving DecidableEq, Repr

/-- A time interval `[start, end)` in milliseconds (`TimeInterval`; the
Rust field `end` is a Lean keyword, rendered `stop`). -/
structure TimeInterval where
  start : Int
  stop : Int
deriving DecidableEq, Repr

/-- The errors of the catalog-resolution path (`error::Error` variants). -/
inductive SentinelError
  | invalidTimeInterval (start stop : Int)
  | stacNoSuchBand (band_name : String)
  | stacInvalidBbox
  | stacInvalidGeoTransform
deriving DecidableEq, Repr

/-- Modelled from the spec: `TimeInterval::new` (missing
`time_interval.rs`) requires `start ≤ end`; `start = end` is an instant. -/
def TimeInterval.new (start stop : Int) : Except SentinelError TimeInterval :=
  if start ≤ stop then .ok ⟨start, stop⟩ else .error (.invalidTimeInterval start stop)

/-- An interval with `start = end` is an instant. -/
def TimeInterval.isInstant (t : TimeInterval) : Bool :=
  t.start == t.stop

/-- Modelled from the spec: `TimeInterval::intersects` (missing
`time_interval.rs`).  Intervals are half-open `[start, end)`; an instant
`[t, t]` is the single point `t` (the spec's instant-query scenario
requires an instant to intersect a proper interval containing it). -/
def TimeInterval.intersects (a b : TimeInterval) : Bool :=
  if a.isInstant && b.isInstant then a.start == b.start
  else if a.isInstant then decide (b.start ≤ a.start) && decide (a.start < b.stop)
  else if b.isInstant then decide (a.start ≤ b.start) && decide (b.start < a.stop)
  else decide (a.start < b.stop) && decide (b.start < a.stop)

/-- A GDAL geo-transform: origin plus pixel sizes (`GeoTransform`). -/
structure GeoTransform where
  origin_x : ℚ
  origin_y : ℚ
  x_pixel_size : ℚ
  y_pixel_size : ℚ
deriving DecidableEq, Repr

/-- A STAC asset for one band: file href, projected shape `[y, x]`, and
the geo-transform derived from its metadata (`StacAsset`;
`gdal_geotransform()` is pre-resolved since `stac.rs` parsing is external). -/
structure StacAsset where
  href : String
  proj_shape : Option (Nat × Nat)
  gdal_geotransform : Option GeoTransform
deriving DecidableEq, Repr

/-- STAC feature properties: acquisition timestamp (ms) and the zone's
EPSG code. -/
structure StacFeatureProperties where
  datetime : Int
  proj_epsg : Option Nat
deriving DecidableEq, Repr

/-- A STAC feature: properties plus its per-band asset map. -/
structure StacFeature where
  properties : StacFeatureProperties
  assets : List (String × StacAsset)
deriving DecidableEq, Repr

/-- `feature.assets.get(name)`. -/
def StacFeature.asset (f : StacFeature) (name : String) : Option StacAsset :=
  (f.assets.find? fun p => p.1 == name).map fun p => p.2

/-- `FileNotFoundHandling`: the "missing tile → treat as no-data" policy. -/
inductive FileNotFoundHandling
  | NoData
  | Error
deriving DecidableEq, Repr

/-- `GdalDatasetParameters`: everything a load instruction carries. -/
structure GdalDatasetParameters where
  file_path : String
  rasterband_channel : Nat
  geo_transform : GeoTransform
  width : Nat
  height : Nat
  file_not_found_handling : FileNotFoundHandling
  no_data_value : Option ℚ
deriving DecidableEq, Repr

/-- `GdalLoadingInfoPart`: one concrete load instruction with its
temporal validity. -/
structure GdalLoadingInfoPart where
  time : TimeInterval
  params : GdalDatasetParameters
deriving DecidableEq, Repr

/-- `SentinelS2L2aCogsMetaData`: API URL plus the dataset's zone and band. -/
structure SentinelS2L2aCogsMetaData where
  api_url : String
  zone : Zone
  band : Band
deriving DecidableEq, Repr

/-- `SentinelS2L2aCogsMetaData::create_loading_info_part` (lines 307-332):
fails with `StacInvalidBbox` without a projected shape and with
`StacInvalidGeoTransform` without a geo-transform; otherwise builds the
load instruction (`/vsicurl/` prefix, band 1, missing-file → no-data). -/
def SentinelS2L2aCogsMetaData.create_loading_info_part (m : SentinelS2L2aCogsMetaData)
    (time_interval : TimeInterval) (asset : StacAsset) :
    Except SentinelError GdalLoadingInfoPart :=
  match asset.proj_shape with
  | none => .error .stacInvalidBbox
  | some (stac_shape_y, stac_shape_x) =>
    match asset.gdal_geotransform with
    | none => .error .stacInvalidGeoTransform
    | some geo_transform =>
      .ok
        { time := time_interval
          params :=
            { file_path := "/vsicurl/" ++ asset.href
              rasterband_channel := 1
              geo_transform := geo_transform
              width := stac_shape_x
              height := stac_shape_y
              file_not_found_handling := .NoData
              no_data_value := m.band.no_data_value } }

/-- One iteration of the `create_loading_info` loop (lines 264-297) for
the feature at index `i`, whose validity ends at `valid_end`: build the
validity interval, and when it intersects the query's time interval, look
up the band's asset (`StacNoSuchBand` when absent) and create the load
instruction. -/
def SentinelS2L2aCogsMetaData.processFeature (m : SentinelS2L2aCogsMetaData)
    (query_time : TimeInterval) (feature : StacFeature) (valid_end : Int) :
    Except SentinelError (Option GdalLoadingInfoPart) :=
  match TimeInterval.new feature.properties.datetime valid_end with
  | .error e => .error e
  | .ok time_interval =>
    if time_interval.intersects query_time then
      match feature.asset m.band.name with
      | none => .error (.stacNoSuchBand m.band.name)
      | some asset =>
        match m.create_loading_info_part time_interval asset with
        | .error e => .error e
        | .ok part => .ok (some part)
    else
      .ok none

/-- The `for i in 0..num_features` loop of `create_loading_info` (lines
261-297): a feature is valid until the next feature starts; the final
feature gets a synthetic 1-second (1000 ms) validity window. -/
def SentinelS2L2aCogsMetaData.buildParts (m : SentinelS2L2aCogsMetaData)
    (query_time : TimeInterval) :
    List StacFeature → Except SentinelError (List GdalLoadingInfoPart)
  | [] => .ok []
  | [feature] =>
    match m.processFeature query_time feature (feature.properties.datetime + 1000) with
    | .error e => .error e
    | .ok (some part) => .ok [part]
    | .ok none => .ok []
  | feature :: next :: rest =>
    match m.processFeature query_time feature next.properties.datetime with
    | .error e => .error e
    | .ok head? =>
      match m.buildParts query_time (next :: rest) with
      | .error e => .error e
      | .ok tail =>
        match head? with
        | some part => .ok (part :: tail)
        | none => .ok tail

/-- Stable insertion into a datetime-sorted list: insert before the first
element whose key is not smaller. -/
def insertFeature (f : StacFeature) : List StacFeature → List StacFeature
  | [] => [f]
  | g :: gs =>
    if f.properties.datetime ≤ g.properties.datetime then f :: g :: gs
    else g :: insertFeature f gs

/-- `features.sort_by_key(|a| a.properties.datetime)` (line 259): a stable
sort by acquisition timestamp, modelled as stable insertion sort. -/
def sortFeatures : List StacFeature → List StacFeature
  | [] => []
  | f :: fs => insertFeature f (sortFeatures fs)

/-- `SentinelS2L2aCogsMetaData::create_loading_info` from the point the
STAC features are fetched (lines 250-305): keep only features of the
requested zone, sort by acquisition timestamp, then run the validity loop. -/
def SentinelS2L2aCogsMetaData.create_loading_info (m : SentinelS2L2aCogsMetaData)
    (query_time : TimeInterval) (features : List StacFeature) :
    Except SentinelError (List GdalLoadingInfoPart) :=
  let features := features.filter fun f => f.properties.proj_epsg == some m.zone.epsg
  let features := sortFeatures features
  m.buildParts query_time features

/-- An axis-aligned bounding box by lower-left/upper-right corners
(`BoundingBox2D`). -/
structure BoundingBox2D where
  lower_left : Coordinate2D
  upper_right : Coordinate2D
deriving DecidableEq, Repr

/-- Spatial resolution in CRS units per pixel (`SpatialResolution`). -/
structure SpatialResolution where
  x : ℚ
  y : ℚ
deriving DecidableEq, Repr

/-- The raster query rectangle (`RasterQueryRectangle`): spatial bounds,
time interval, spatial resolution. -/
structure RasterQueryRectangle where
  spatial_bounds : SpatialPartition2D
  time_interval : TimeInterval
  spatial_resolution : SpatialResolution
deriving DecidableEq, Repr

/-- The STAC request parameters built by `request_params` (lines 350-370),
kept structured (URL-encoding is external): collection id, reprojected
bbox, datetime range as a millisecond pair, page size. -/
structure StacRequestParams where
  collections : String
  bbox : BoundingBox2D
  datetime_start : Int
  datetime_stop : Int
  limit : Nat
deriving DecidableEq, Repr

/-- `SentinelS2L2aCogsMetaData::time_range_request` (lines 417-440): shift
the query's start back by one minute (60000 ms) "to ensure getting the
most recent data for start time"; the end is passed through unchanged.
The `TimeInstance` → UTC conversion (missing `time_instance.rs`) is
modelled from the spec as total on the millisecond timeline. -/
def SentinelS2L2aCogsMetaData.time_range_request (time : TimeInterval) :
    Except SentinelError (Int × Int) :=
  .ok (time.start - 60000, time.stop)

/-- Modelled from the spec:
`BoundingBox2D::new_upper_left_lower_right_unchecked` builds the box with
`lower_left = (ul.x, lr.y)` and `upper_right = (lr.x, ul.y)`. -/
def BoundingBox2D.new_upper_left_lower_right_unchecked
    (upper_left lower_right : Coordinate2D) : BoundingBox2D :=
  ⟨⟨upper_left.x, lower_right.y⟩, ⟨lower_right.x, upper_left.y⟩⟩

/-- `SentinelS2L2aCogsMetaData::request_params` (lines 334-371): compute
the back-shifted time range, reproject the query's spatial bounds into the
catalog's EPSG:4326 frame (the projector is external, passed as
`reproject_clipped`), and assemble the catalog request with the fixed
collection id and page size 500. -/
def SentinelS2L2aCogsMetaData.request_params (_m : SentinelS2L2aCogsMetaData)
    (reproject_clipped : BoundingBox2D → Except SentinelError BoundingBox2D)
    (query : RasterQueryRectangle) : Except SentinelError StacRequestParams :=
  match SentinelS2L2aCogsMetaData.time_range_request query.time_interval with
  | .error e => .error e
  | .ok (t_start, t_stop) =>
    match reproject_clipped (BoundingBox2D.new_upper_left_lower_right_unchecked
        query.spatial_bounds.upper_left query.spatial_bounds.lower_right) with
    | .error e => .error e
    | .ok bbox =>
      .ok
        { collections := "sentinel-s2-l2a-cogs"
          bbox := bbox
          datetime_start := t_start
          datetime_stop := t_stop
          limit := 500 }

/-- The spec-side description of per-asset validity (spec §4.4 step 4 and
§8): timestamps `t1 < t2 < … < tN` yield the intervals
`[t1,t2), [t2,t3), …, [tN, tN+1s)`. -/
def specValidityIntervals : List Int → List TimeInterval
  | [] => []
  | [t] => [⟨t, t + 1000⟩]
  | t1 :: t2 :: rest => ⟨t1, t2⟩ :: specValidityIntervals (t2 :: rest)

/-- The spec-side description of the load instruction emitted for one
asset (spec §4.4 step 5): the asset's file locator, geo-transform, pixel
dimensions, the missing-tile → no-data policy, and the validity interval.
Total: the `getD` defaults are never reached for assets that carry their
projection metadata (the hypothesis of the claim). -/
def specLoadPart (m : SentinelS2L2aCogsMetaData) (time_interval : TimeInterval)
    (f : StacFeature) : GdalLoadingInfoPart :=
  match f.asset m.band.name with
  | some a =>
    { time := time_interval
      params :=
        { file_path := "/vsicurl/" ++ a.href
          rasterband_channel := 1
          geo_transform := a.gdal_geotransform.getD ⟨0, 0, 0, 0⟩
          width := (a.proj_shape.getD (0, 0)).2
          height := (a.proj_shape.getD (0, 0)).1
          file_not_found_handling := .NoData
          no_data_value := m.band.no_data_value } }
  | none =>
    { time := time_interval
      params :=
        { file_path := ""
          rasterband_channel := 1
          geo_transform := ⟨0, 0, 0, 0⟩
          width := 0
          height := 0
          file_not_found_handling := .NoData
          no_data_value := m.band.no_data_value } }

/-- The spec-side description of the whole resolution output (spec §4.4
step 5 and §8): pair each asset with its validity interval, keep exactly
those whose interval intersects the query's time interval (in the given
ascending order), and emit one load instruction each. -/
def specLoadInstructions (m : SentinelS2L2aCogsMetaData) (query_time : TimeInterval)
    (fs : List StacFeature) : List GdalLoadingInfoPart :=
  ((fs.zip (specValidityIntervals (fs.map fun f => f.properties.datetime))).filter
    fun fi => fi.2.intersects query_time).map
    fun fi => specLoadPart m fi.2 fi.1

/-! ## Theorems -/

/-- C2: for every shape `S`, no-data value `v` and index `idx`,
`NoDataGrid(S, v).get_at_grid_index(idx)` returns `v` when `idx` lies
within `S`'s bounds and fails with an out-of-bounds error carrying the
offending index and the valid min/max range otherwise. -/
theorem noDataGrid_get_at_grid_index_spec {T : Type} (S : GridShape) (v : T) (idx : GridIdx) :
    (S.contains idx = true →
      (NoDataGrid.mk S v).get_at_grid_index idx = .ok v)
    ∧ (S.contains idx = false →
      (NoDataGrid.mk S v).get_at_grid_index idx =
        .error (.gridIndexOutOfBounds idx S.min_index S.max_index)) := by
  constructor <;> intro h <;>
    simp [NoDataGrid.get_at_grid_index, NoDataGrid.get_at_grid_index_unchecked, h]

/-- Witness for C2 at the repository's own test input: a 2×2 grid with
no-data value 42, read inside the bounds at `[0, 0]` and outside at
`[100, 100]`. -/
theorem noDataGrid_get_at_grid_index_spec_witness :
    (NoDataGrid.mk ⟨[2, 2]⟩ (42 : Int)).get_at_grid_index [0, 0] = .ok 42
    ∧ (NoDataGrid.mk ⟨[2, 2]⟩ (42 : Int)).get_at_grid_index [100, 100] =
        .error (.gridIndexOutOfBounds [100, 100]
          (GridShape.mk [2, 2]).min_index (GridShape.mk [2, 2]).max_index) :=
  ⟨(noDataGrid_get_at_grid_index_spec ⟨[2, 2]⟩ 42 [0, 0]).1 (by decide),
   (noDataGrid_get_at_grid_index_spec ⟨[2, 2]⟩ 42 [100, 100]).2 (by decide)⟩

/-- C10: `get_at_grid_index_unchecked` is total and returns the no-data
value for every index, in or out of bounds — misused unchecked access
yields the sentinel, never arbitrary data. -/
theorem noDataGrid_unchecked_total {T : Type} (S : GridShape) (v : T) (idx : GridIdx) :
    (NoDataGrid.mk S v).get_at_grid_index_unchecked idx = v :=
  rfl

/-- C5: `convert_dtype` to `f64` preserves the integer sentinel exactly
(for `f64`-representable `v`, which covers every integer pixel type of at
most 32 bits) and keeps the shape: a value-preserving widening. -/
theorem noDataGrid_convert_dtype_widening (S : GridShape) (v : Int)
    (h : v.natAbs ≤ 2 ^ 53) :
    ((NoDataGrid.mk S v).convert_dtype intAsF64).no_data_value = (v : ℚ)
    ∧ ((NoDataGrid.mk S v).convert_dtype intAsF64).shape = S :=
  ⟨rfl, rfl⟩

/-- Witness for C5 at the repository's own test input: sentinel 42 on a
2×2 grid converts to the `f64` value 42. -/
theorem noDataGrid_convert_dtype_widening_witness :
    ((NoDataGrid.mk ⟨[2, 2]⟩ (42 : Int)).convert_dtype intAsF64).no_data_value = (42 : ℚ)
    ∧ ((NoDataGrid.mk ⟨[2, 2]⟩ (42 : Int)).convert_dtype intAsF64).shape = ⟨[2, 2]⟩ :=
  noDataGrid_convert_dtype_widening ⟨[2, 2]⟩ 42 (by decide)

/-- C6 counterexample: `set_grid_bounds` does not fail on degenerate
bounds — re-basing a 2×2 no-data grid onto the degenerate bounding box
`min = [1,1] > max = [0,0]` succeeds. -/
theorem set_grid_bounds_degenerate_succeeds :
    (GridBoundingBox.mk [1, 1] [0, 0]).isDegenerate = true
    ∧ (NoDataGrid.mk ⟨[2, 2]⟩ (42 : Int)).set_grid_bounds ⟨[1, 1], [0, 0]⟩ =
        .ok ⟨⟨[1, 1], [0, 0]⟩, 42⟩ :=
  ⟨by decide, rfl⟩

/-- C6 amended: `set_grid_bounds` on a `NoDataGrid` always succeeds,
re-basing the grid onto the given bounding box with the no-data value
unchanged (degenerate bounds are not rejected here). -/
theorem set_grid_bounds_always_succeeds {T : Type} (g : NoDataGrid T)
    (bounds : GridBoundingBox) :
    g.set_grid_bounds bounds = .ok ⟨bounds, g.no_data_value⟩ :=
  rfl

/-- Reading a replicated buffer inside its length yields the fill value. -/
theorem replicate_get?_of_lt {T : Type} (v : T) {n m : Nat} (h : m < n) :
    (List.replicate n v).get? m = some v := by
  induction n generalizing m with
  | zero => omega
  | succ n ih =>
    cases m with
    | zero => rfl
    | succ m => simpa [List.replicate] using ih (by omega)

/-- The row-major linearization of an in-bounds index is non-negative and
below the element count: the bounds check makes the buffer read safe. -/
theorem linearSpaceIndex_bounds :
    ∀ (ss : List Nat) (is_ : GridIdx),
      idxLe (ss.map fun _ => (0 : Int)) is_ = true →
      idxLe is_ (ss.map fun a => (a : Int) - 1) = true →
      0 ≤ linearSpaceIndexUnchecked ss is_
      ∧ linearSpaceIndexUnchecked ss is_ < (ss.prod : Int)
  | [], [] => by
    intro _ _
    simp [linearSpaceIndexUnchecked]
  | [], i :: is_ => by
    intro h _
    simp [idxLe] at h
  | s :: ss, [] => by
    intro h _
    simp [idxLe] at h
  | s :: ss, i :: is_ => by
    intro h1 h2
    simp only [List.map_cons, idxLe, Bool.and_eq_true, decide_eq_true_eq] at h1 h2
    obtain ⟨hi0, h1'⟩ := h1
    obtain ⟨hi1, h2'⟩ := h2
    obtain ⟨ihl, ihr⟩ := linearSpaceIndex_bounds ss is_ h1' h2'
    have hP : (0 : Int) < (ss.prod : Int) := lt_of_le_of_lt ihl ihr
    constructor
    · have : 0 ≤ i * (ss.prod : Int) := mul_nonneg hi0 (le_of_lt hP)
      show 0 ≤ i * (ss.prod : Int) + linearSpaceIndexUnchecked ss is_
      linarith
    · show i * (ss.prod : Int) + linearSpaceIndexUnchecked ss is_ < ((s :: ss).prod : Int)
      have hcast : ((s :: ss).prod : Int) = (s : Int) * (ss.prod : Int) := by
        push_cast [List.prod_cons]
        ring
      rw [hcast]
      nlinarith [mul_le_mul_of_nonneg_right (show i + 1 ≤ (s : Int) from by linarith)
        (le_of_lt hP)]

/-- C4: converting a `NoDataGrid(S, v)` to a dense grid yields the grid of
shape `S` whose buffer is `number_of_elements` copies of `v` with sentinel
`v`, and for every index the dense grid's `get_at_grid_index` returns
exactly what the virtual grid returns — the virtual grid is observationally
indistinguishable from the materialized one. -/
theorem noDataGrid_toGrid_materializes {T : Type} (S : GridShape) (v : T) (idx : GridIdx) :
    (NoDataGrid.mk S v).toGrid =
      ⟨S, List.replicate S.number_of_elements v, some v⟩
    ∧ (NoDataGrid.mk S v).toGrid.get_at_grid_index idx =
      (NoDataGrid.mk S v).get_at_grid_index idx := by
  refine ⟨rfl, ?_⟩
  by_cases hc : S.contains idx = true
  · have hb := hc
    unfold GridShape.contains at hb
    rw [Bool.and_eq_true] at hb
    obtain ⟨hmin, hmax⟩ := hb
    obtain ⟨hl, hr⟩ := linearSpaceIndex_bounds S.shape_array idx hmin hmax
    have hlt : (linearSpaceIndexUnchecked S.shape_array idx).toNat < S.number_of_elements := by
      unfold GridShape.number_of_elements
      omega
    unfold Grid.get_at_grid_index NoDataGrid.get_at_grid_index
    show (if S.contains idx = true then _ else _) = (if S.contains idx = true then _ else _)
    rw [if_pos hc, if_pos hc]
    simp only [NoDataGrid.toGrid, Grid.new_filled, NoDataGrid.get_at_grid_index_unchecked]
    rw [replicate_get?_of_lt v hlt]
  · unfold Grid.get_at_grid_index NoDataGrid.get_at_grid_index
    show (if S.contains idx = true then _ else _) = (if S.contains idx = true then _ else _)
    rw [if_neg hc, if_neg hc]
    rfl

/-- C1, evaluation at the failing input: a `RasterVectorJoin` with nine
raster sources (and nine names, one valid vector source) passes the arity
check and initializes successfully — the `ensure!` condition
`!is_empty() || len > 8` holds for every non-zero length — while zero
raster sources are rejected with `InvalidNumberOfRasterInputs` whose own
payload declares the expected range starting at 1. -/
theorem rasterVectorJoin_arity_check_bug :
    (RasterVectorJoin.mk ⟨["a", "b", "c", "d", "e", "f", "g", "h", "i"]⟩
        (List.replicate 9 (.ok ())) [.ok ⟨.MultiPoint, none, []⟩]).init =
      .ok ⟨⟨["a", "b", "c", "d", "e", "f", "g", "h", "i"]⟩,
        List.replicate 9 (), ⟨.MultiPoint, none, []⟩⟩
    ∧ (RasterVectorJoin.mk ⟨[]⟩ [] [.ok ⟨.MultiPoint, none, []⟩]).init =
      .error (.invalidNumberOfRasterInputs 1 8 0) :=
  ⟨rfl, rfl⟩

/-- C9: whenever a `RasterVectorJoin` initializes successfully, its result
descriptor is exactly the single vector source's result descriptor,
unchanged — in particular no attribute columns for the joined raster
values are added. -/
theorem rasterVectorJoin_descriptor_unchanged (op : RasterVectorJoin)
    (d : VectorResultDescriptor) (res : InitializedRasterVectorJoin)
    (hv : op.vector_sources = [.ok d]) (h : op.init = .ok res) :
    res.result_descriptor = d ∧ res.result_descriptor.columns = d.columns := by
  unfold RasterVectorJoin.init at h
  rw [hv] at h
  simp only [List.headD] at h
  split at h
  · simp at h
  · split at h
    · simp at h
    · split at h
      · simp at h
      · split at h
        · simp at h
        · split at h
          · simp at h
          · injection h with h'
            subst h'
            exact ⟨rfl, rfl⟩

/-- Witness for C9: a join of one raster source over a point collection
with one existing column keeps that descriptor verbatim. -/
theorem rasterVectorJoin_descriptor_unchanged_witness :
    ∃ res, (RasterVectorJoin.mk ⟨["ndvi"]⟩ [.ok ()]
        [.ok ⟨.MultiPoint, some 4326, [("station", .Text)]⟩]).init = .ok res
      ∧ res.result_descriptor = ⟨.MultiPoint, some 4326, [("station", .Text)]⟩
      ∧ res.result_descriptor.columns = [("station", .Text)] := by
  refine ⟨⟨⟨["ndvi"]⟩, [()], ⟨.MultiPoint, some 4326, [("station", .Text)]⟩⟩, rfl, ?_⟩
  exact rasterVectorJoin_descriptor_unchanged
    (RasterVectorJoin.mk ⟨["ndvi"]⟩ [.ok ()]
      [.ok ⟨.MultiPoint, some 4326, [("station", .Text)]⟩])
    ⟨.MultiPoint, some 4326, [("station", .Text)]⟩
    ⟨⟨["ndvi"]⟩, [()], ⟨.MultiPoint, some 4326, [("station", .Text)]⟩⟩ rfl rfl

/-- C7: the `get_coverage` validation prefix is fatal — if the request
carries an explicit grid origin different from the bounding box's
upper-left corner, or a bounding-box CRS different from the declared grid
base CRS, the handler returns an error and never reaches query
execution. -/
theorem get_coverage_validation_fatal (request : GetCoverage) :
    (∀ o, request.gridorigin = some o →
      o ≠ request.boundingbox.partition.upper_left →
      ∃ e, get_coverage request = .error e)
    ∧ (∀ c, request.boundingbox.spatial_reference = some c →
      c ≠ request.gridbasecrs →
      ∃ e, get_coverage request = .error e) := by
  constructor
  · intro o ho hne
    by_cases hv : request.version = "1.1.1" ∨ request.version = "1.1.0"
    · refine ⟨.wcsGridOriginMustEqualBoundingboxUpperLeft, ?_⟩
      simp only [get_coverage, if_neg (not_not_intro hv), ho]
      rw [if_neg hne]
    · exact ⟨.wcsVersionNotSupported, by simp only [get_coverage, if_pos hv]⟩
  · intro c hc hne
    by_cases hv : request.version = "1.1.1" ∨ request.version = "1.1.0"
    · have hcrs : get_coverage_crs_check request =
          .error .wcsBoundingboxCrsMustEqualGridBaseCrs := by
        unfold get_coverage_crs_check
        rw [hc]
        exact if_neg fun hh => hne hh.symm
      cases hgo : request.gridorigin with
      | none =>
        refine ⟨.wcsBoundingboxCrsMustEqualGridBaseCrs, ?_⟩
        simp only [get_coverage, if_neg (not_not_intro hv), hgo]
        exact hcrs
      | some o =>
        by_cases heq : o = request.boundingbox.partition.upper_left
        · refine ⟨.wcsBoundingboxCrsMustEqualGridBaseCrs, ?_⟩
          simp only [get_coverage, if_neg (not_not_intro hv), hgo]
          rw [if_pos heq]
          exact hcrs
        · refine ⟨.wcsGridOriginMustEqualBoundingboxUpperLeft, ?_⟩
          simp only [get_coverage, if_neg (not_not_intro hv), hgo]
          rw [if_neg heq]
    · exact ⟨.wcsVersionNotSupported, by simp only [get_coverage, if_pos hv]⟩

/-- Witness for C7: a valid-version request whose grid origin differs from
the bounding box's upper-left corner fails, and one whose bounding-box CRS
differs from the grid base CRS fails. -/
theorem get_coverage_validation_fatal_witness :
    (∃ e, get_coverage
      ⟨"1.1.1", "w", ⟨⟨⟨-10, 80⟩, ⟨50, 20⟩⟩, none⟩, ⟨"EPSG", 4326⟩, some ⟨80, -10⟩⟩ =
        .error e)
    ∧ (∃ e, get_coverage
      ⟨"1.1.1", "w", ⟨⟨⟨-10, 80⟩, ⟨50, 20⟩⟩, some ⟨"EPSG", 32632⟩⟩, ⟨"EPSG", 4326⟩, none⟩ =
        .error e) :=
  ⟨(get_coverage_validation_fatal _).1 ⟨80, -10⟩ rfl (by decide),
   (get_coverage_validation_fatal _).2 ⟨"EPSG", 32632⟩ rfl (by decide)⟩

/-- C8: the catalog request parameters carry the datetime range
`[start - 1 minute, end]`: the requested start is the query's start
shifted back by 60000 ms and the requested end is the query's end. -/
theorem request_params_datetime_range (m : SentinelS2L2aCogsMetaData)
    (reproject_clipped : BoundingBox2D → Except SentinelError BoundingBox2D)
    (query : RasterQueryRectangle) (ps : StacRequestParams)
    (h : m.request_params reproject_clipped query = .ok ps) :
    ps.datetime_start = query.time_interval.start - 60000
    ∧ ps.datetime_stop = query.time_interval.stop := by
  unfold SentinelS2L2aCogsMetaData.request_params
    SentinelS2L2aCogsMetaData.time_range_request at h
  split at h
  · simp at h
  · next t_start t_stop heq =>
    injection heq with hp
    obtain ⟨h1, h2⟩ := Prod.mk.injEq .. ▸ hp
    split at h
    · simp at h
    · injection h with h'
      subst h'
      exact ⟨h1.symm, h2.symm⟩

/-- Witness for C8 at the repository's own test query: the instant
2021-01-02T10:02:26Z (1609581746000 ms) is requested as the range from one
minute earlier to the instant itself. -/
theorem request_params_datetime_range_witness :
    ∃ ps, (SentinelS2L2aCogsMetaData.mk "https://earth-search.aws.element84.com/v0/search"
        ⟨"UTM32N", 32632⟩ ⟨"B01", some 0, .U16⟩).request_params .ok
        ⟨⟨⟨166021.44, 0⟩, ⟨534994.66, 9329005.18⟩⟩, ⟨1609581746000, 1609581746000⟩, ⟨1, 1⟩⟩ =
        .ok ps
      ∧ ps.datetime_start = 1609581746000 - 60000
      ∧ ps.datetime_stop = 1609581746000 := by
  refine ⟨_, rfl, ?_⟩
  exact request_params_datetime_range
    (SentinelS2L2aCogsMetaData.mk "https://earth-search.aws.element84.com/v0/search"
      ⟨"UTM32N", 32632⟩ ⟨"B01", some 0, .U16⟩) .ok
    ⟨⟨⟨166021.44, 0⟩, ⟨534994.66, 9329005.18⟩⟩, ⟨1609581746000, 1609581746000⟩, ⟨1, 1⟩⟩
    _ rfl

/-- Inserting an element no later than every list element puts it in
front. -/
theorem insertFeature_le_head (f : StacFeature) (fs : List StacFeature)
    (h : ∀ g ∈ fs, f.properties.datetime ≤ g.properties.datetime) :
    insertFeature f fs = f :: fs := by
  cases fs with
  | nil => rfl
  | cons g gs =>
    unfold insertFeature
    rw [if_pos (h g (List.mem_cons_self g gs))]

/-- The stable sort leaves an already-sorted list unchanged. -/
theorem sortFeatures_of_sorted (fs : List StacFeature)
    (h : fs.Pairwise fun a b => a.properties.datetime ≤ b.properties.datetime) :
    sortFeatures fs = fs := by
  induction fs with
  | nil => rfl
  | cons f gs ih =>
    rw [List.pairwise_cons] at h
    obtain ⟨hf, hp⟩ := h
    unfold sortFeatures
    rw [ih hp, insertFeature_le_head f gs hf]

/-- The validity loop on strictly time-sorted features whose band asset
carries its projection metadata produces exactly the spec-side load
instructions. -/
theorem buildParts_spec (m : SentinelS2L2aCogsMetaData) (qt : TimeInterval) :
    ∀ fs : List StacFeature,
      fs.Pairwise (fun a b => a.properties.datetime < b.properties.datetime) →
      (∀ f ∈ fs, ∃ a, f.asset m.band.name = some a
        ∧ (∃ sh, a.proj_shape = some sh) ∧ (∃ gt, a.gdal_geotransform = some gt)) →
      m.buildParts qt fs = .ok (specLoadInstructions m qt fs) := by
  intro fs
  induction fs with
  | nil =>
    intro _ _
    rfl
  | cons f tail ih =>
    intro hs hb
    obtain ⟨a, ha, ⟨⟨sy, sx⟩, hsh⟩, ⟨gt, hgt⟩⟩ := hb f (List.mem_cons_self f tail)
    cases tail with
    | nil =>
      have hok : TimeInterval.new f.properties.datetime (f.properties.datetime + 1000) =
          .ok ⟨f.properties.datetime, f.properties.datetime + 1000⟩ := by
        unfold TimeInterval.new
        rw [if_pos (by omega)]
      by_cases hint :
        (TimeInterval.mk f.properties.datetime (f.properties.datetime + 1000)).intersects qt
          = true
      · simp only [SentinelS2L2aCogsMetaData.buildParts,
          SentinelS2L2aCogsMetaData.processFeature, hok, hint, if_true, ha,
          SentinelS2L2aCogsMetaData.create_loading_info_part, hsh, hgt,
          specLoadInstructions, specValidityIntervals, List.map_cons, List.map_nil,
          List.zip_cons_cons, List.zip_nil_right, List.filter, specLoadPart]
        simp [specLoadPart, ha, hsh, hgt, hint]
      · simp only [SentinelS2L2aCogsMetaData.buildParts,
          SentinelS2L2aCogsMetaData.processFeature, hok]
        simp [hint, specLoadInstructions, specValidityIntervals]
    | cons next rest =>
      have h12 : f.properties.datetime < next.properties.datetime :=
        (List.pairwise_cons.mp hs).1 next (List.mem_cons_self next rest)
      have hok : TimeInterval.new f.properties.datetime next.properties.datetime =
          .ok ⟨f.properties.datetime, next.properties.datetime⟩ := by
        unfold TimeInterval.new
        rw [if_pos (le_of_lt h12)]
      have htail := ih (List.pairwise_cons.mp hs).2
        (fun g hg => hb g (List.mem_cons_of_mem f hg))
      by_cases hint :
        (TimeInterval.mk f.properties.datetime next.properties.datetime).intersects qt = true
      · simp only [SentinelS2L2aCogsMetaData.buildParts,
          SentinelS2L2aCogsMetaData.processFeature, hok, hint, if_true, ha,
          SentinelS2L2aCogsMetaData.create_loading_info_part, hsh, hgt, htail]
        simp [specLoadInstructions, specValidityIntervals, List.zip_cons_cons,
          List.filter, hint, specLoadPart, ha, hsh, hgt, List.zip]
      · simp only [SentinelS2L2aCogsMetaData.buildParts,
          SentinelS2L2aCogsMetaData.processFeature, hok, htail]
        simp [hint, specLoadInstructions, specValidityIntervals, List.zip_cons_cons,
          List.filter, List.zip]

/-- C3: for time-sorted same-zone catalog assets with timestamps
`t1 < … < tN` whose band asset carries its projection metadata, temporal
catalog resolution assigns asset `i` the validity interval `[ti, t(i+1))`,
the final asset `[tN, tN + 1s)`, and emits exactly one load instruction
per asset whose validity interval intersects the query's time interval,
in ascending time order. -/
theorem create_loading_info_resolves (m : SentinelS2L2aCogsMetaData) (qt : TimeInterval)
    (fs : List StacFeature)
    (hsorted : fs.Pairwise fun a b => a.properties.datetime < b.properties.datetime)
    (hzone : ∀ f ∈ fs, f.properties.proj_epsg = some m.zone.epsg)
    (hband : ∀ f ∈ fs, ∃ a, f.asset m.band.name = some a
      ∧ (∃ sh, a.proj_shape = some sh) ∧ (∃ gt, a.gdal_geotransform = some gt)) :
    m.create_loading_info qt fs = .ok (specLoadInstructions m qt fs) := by
  unfold SentinelS2L2aCogsMetaData.create_loading_info
  rw [List.filter_eq_self.mpr (fun f hf => by simp [hzone f hf])]
  show m.buildParts qt (sortFeatures fs) = _
  rw [sortFeatures_of_sorted fs (hsorted.imp fun h => le_of_lt h)]
  exact buildParts_spec m qt fs hsorted hband

/-- Witness for C3: two UTM32N assets at t = 1000 ms and t = 5000 ms
queried over `[0, 2000)` resolve to exactly the first asset's load
instruction, valid over `[1000, 5000)`. -/
theorem create_loading_info_resolves_witness :
    (SentinelS2L2aCogsMetaData.mk "https://example.org/search"
        ⟨"UTM32N", 32632⟩ ⟨"B01", some 0, .U16⟩).create_loading_info ⟨0, 2000⟩
      [⟨⟨1000, some 32632⟩, [("B01", ⟨"a1/B01.tif", some (1830, 1830),
          some ⟨600000, 3400020, 60, -60⟩⟩)]⟩,
       ⟨⟨5000, some 32632⟩, [("B01", ⟨"a2/B01.tif", some (1830, 1830),
          some ⟨600000, 3400020, 60, -60⟩⟩)]⟩] =
      .ok (specLoadInstructions
        (SentinelS2L2aCogsMetaData.mk "https://example.org/search"
          ⟨"UTM32N", 32632⟩ ⟨"B01", some 0, .U16⟩) ⟨0, 2000⟩
        [⟨⟨1000, some 32632⟩, [("B01", ⟨"a1/B01.tif", some (1830, 1830),
            some ⟨600000, 3400020, 60, -60⟩⟩)]⟩,
         ⟨⟨5000, some 32632⟩, [("B01", ⟨"a2/B01.tif", some (1830, 1830),
            some ⟨600000, 3400020, 60, -60⟩⟩)]⟩])
    ∧ specLoadInstructions
        (SentinelS2L2aCogsMetaData.mk "https://example.org/search"
          ⟨"UTM32N", 32632⟩ ⟨"B01", some 0, .U16⟩) ⟨0, 2000⟩
        [⟨⟨1000, some 32632⟩, [("B01", ⟨"a1/B01.tif", some (1830, 1830),
            some ⟨600000, 3400020, 60, -60⟩⟩)]⟩,
         ⟨⟨5000, some 32632⟩, [("B01", ⟨"a2/B01.tif", some (1830, 1830),
            some ⟨600000, 3400020, 60, -60⟩⟩)]⟩] =
      [⟨⟨1000, 5000⟩, ⟨"/vsicurl/a1/B01.tif", 1, ⟨600000, 3400020, 60, -60⟩,
        1830, 1830, .NoData, some 0⟩⟩] := by
  constructor
  · refine create_loading_info_resolves _ _ _ ?_ ?_ ?_
    · refine List.Pairwise.cons ?_ (List.pairwise_singleton _ _)
      intro b hb
      rw [List.mem_singleton] at hb
      subst hb
      decide
    · intro f hf
      simp only [List.mem_cons, List.not_mem_nil, or_false] at hf
      rcases hf with rfl | rfl <;> rfl
    · intro f hf
      simp only [List.mem_cons, List.not_mem_nil, or_false] at hf
      rcases hf with rfl | rfl <;> exact ⟨_, rfl, ⟨_, rfl⟩, ⟨_, rfl⟩⟩
  · rfl

end Geo
